import Mathlib

/-!
Verification of `kubesession.py`: a shallow embedding of the
`_KubernetesAdapter` transport (URL rewriting and TLS hostname-verification
override) and of the `get_kube_session` session builder, with theorems
settling the specification's claims.

Strings are modelled as Lean `String`s; the character-level work is done on
`List Char` (`String.data`).  Python dictionaries whose keys the code probes
with `in`/`[]` are modelled as association lists or `Option` fields.  Python
exceptions raised during the build (`IndexError` from `[...][0]` on an empty
filter result, `KeyError` from a missing dict key) are modelled with
`Except`.
-/

namespace Kubesession

/-- Boolean test that the first list is an initial segment of the second.
Used to model the pattern search inside Python's `str.replace`. -/
def startsWithL : List Char → List Char → Bool
  | [], _ => true
  | _ :: _, [] => false
  | p :: ps, c :: cs => p = c && startsWithL ps cs

/-- Fuel-driven model of Python's `str.replace(pat, rep)` for a non-empty
`pat`: scan left to right, replace each non-overlapping occurrence of `pat`
by `rep`, and resume scanning after the replaced segment.  `fuel` only needs
to be at least the length of the scanned list (each step consumes at least
one character); it makes the recursion structural so that concrete inputs
evaluate by `decide`/`rfl`. -/
def replaceFuel : Nat → List Char → List Char → List Char → List Char
  | 0, _, _, l => l
  | _ + 1, _, _, [] => []
  | fuel + 1, pat, rep, c :: cs =>
    if (!pat.isEmpty) && startsWithL pat (c :: cs) then
      rep ++ replaceFuel fuel pat rep ((c :: cs).drop pat.length)
    else
      c :: replaceFuel fuel pat rep cs

/-- Model of `s.replace(pat, rep)` from the adapter's `send`
(`kubesession.py:35`); the two patterns used there, `kube://` and
`$$NAMESPACE$$`, are non-empty, which is the case `replaceFuel` models. -/
def pyReplace (s pat rep : String) : String :=
  ⟨replaceFuel s.data.length pat.data rep.data s.data⟩

/-- Spec-side splitting: cut the list at every non-overlapping occurrence of
`pat`, left to right, dropping the occurrences.  This is the "every
occurrence of the literal substring" reading of the specification. -/
def splitOnFuel : Nat → List Char → List Char → List (List Char)
  | 0, _, l => [l]
  | _ + 1, _, [] => [[]]
  | fuel + 1, pat, c :: cs =>
    if (!pat.isEmpty) && startsWithL pat (c :: cs) then
      [] :: splitOnFuel fuel pat ((c :: cs).drop pat.length)
    else
      match splitOnFuel fuel pat cs with
      | [] => [[c]]
      | p :: ps => (c :: p) :: ps

/-- Join a list of pieces with a separator between consecutive pieces. -/
def joinSep (sep : List Char) : List (List Char) → List Char
  | [] => []
  | [p] => p
  | p :: q :: ps => p ++ sep ++ joinSep sep (q :: ps)

/-- Spec-side substitution, following the spec's words: every occurrence of
the literal substring `pat` in `s` is replaced by `rep` — formalised as
splitting `s` at the occurrences of `pat` and joining the pieces with
`rep`. -/
def specSubstitute (s pat rep : String) : String :=
  ⟨joinSep rep.data (splitOnFuel s.data.length pat.data s.data)⟩

theorem splitOnFuel_ne_nil (n : Nat) (pat l : List Char) :
    splitOnFuel n pat l ≠ [] := by
  match n, l with
  | 0, l => simp [splitOnFuel]
  | _ + 1, [] => simp [splitOnFuel]
  | _ + 1, c :: cs =>
    simp only [splitOnFuel]
    split
    · simp
    · split <;> simp

theorem replaceFuel_eq_joinSep (n : Nat) (pat rep l : List Char) :
    replaceFuel n pat rep l = joinSep rep (splitOnFuel n pat l) := by
  induction n generalizing l with
  | zero => simp [replaceFuel, splitOnFuel, joinSep]
  | succ n ih =>
    match l with
    | [] => simp [replaceFuel, splitOnFuel, joinSep]
    | c :: cs =>
      simp only [replaceFuel, splitOnFuel]
      split
      · rw [ih]
        rcases h : splitOnFuel n pat ((c :: cs).drop pat.length) with _ | ⟨p, ps⟩
        · exact absurd h (splitOnFuel_ne_nil n pat _)
        · simp [joinSep]
      · rw [ih]
        rcases h : splitOnFuel n pat cs with _ | ⟨p, ps⟩
        · exact absurd h (splitOnFuel_ne_nil n pat cs)
        · rcases ps with _ | ⟨q, qs⟩ <;> simp [joinSep]

/-- The implementation-side replacement agrees with the spec-side
split-and-join substitution. -/
theorem pyReplace_eq_specSubstitute (s pat rep : String) :
    pyReplace s pat rep = specSubstitute s pat rep := by
  simp [pyReplace, specSubstitute, replaceFuel_eq_joinSep]

/-! ## The transport adapter (`_KubernetesAdapter`) -/

/-- An outgoing HTTP request, as the adapter's `send` sees it: a URL and a
header collection.  `requests` stores headers in a `CaseInsensitiveDict`;
we model the collection as an association list and keep the code's own
case-insensitive scan. -/
structure Request where
  url : String
  headers : List (String × String)
deriving DecidableEq, Repr

/-- The state of a `_KubernetesAdapter`: the `server` and `namespace`
strings bound at construction (`kubesession.py:29-32`), and the single key
of `self.poolmanager.connection_pool_kw` the code touches,
`assert_hostname` (`none` models the key being absent from the dict). -/
structure AdapterState where
  server : String
  «namespace» : String
  assertHostname : Option String
deriving DecidableEq, Repr

/-- Model of `str.lower()` character by character (the strings lowercased
by the code — header names and URL hostnames — are ASCII). -/
def lowerStr (s : String) : String := ⟨s.data.map Char.toLower⟩

/-- Model of `s.startswith(pre)`. -/
def startsWithStr (s pre : String) : Bool := startsWithL pre.data s.data

/-- The case-insensitive scan of `send` (`kubesession.py:38-41`): iterate
over the headers, and on the first name whose lowercasing is `"host"`,
return that header's value (the loop `break`s). -/
def findHostHeader : List (String × String) → Option String
  | [] => none
  | (n, v) :: rest => if lowerStr n = "host" then some v else findHostHeader rest

/-- Python truthiness of `host_header` (`if host_header:` at
`kubesession.py:45`): `None` and the empty string are falsy. -/
def truthyOptStr : Option String → Bool
  | none => false
  | some s => !(s = "")

/-- Model of `_KubernetesAdapter.send` (`kubesession.py:34-51`): rewrite the
request URL by replacing `kube://` with the bound server and `$$NAMESPACE$$`
with the bound namespace, then set or clear the pool's `assert_hostname`
from the request's `Host` header.  Returns the request as forwarded to
`super().send` together with the adapter's updated pool state. -/
def send (a : AdapterState) (r : Request) : Request × AdapterState :=
  let url' := pyReplace (pyReplace r.url "kube://" a.server) "$$NAMESPACE$$" a.«namespace»
  let r' : Request := { r with url := url' }
  let hostHeader := findHostHeader r'.headers
  let a' :=
    if truthyOptStr hostHeader then
      { a with assertHostname := hostHeader }
    else if a.assertHostname.isSome then
      { a with assertHostname := none }
    else
      a
  (r', a')

/-! ## The configuration document -/

/-- A `cluster` record of the kubeconfig document.  `server` is always read
(`cluster['server']`); `certificate-authority` and
`insecure-skip-tls-verify` are probed with `in` / `.get`, so they are
`Option`s. -/
structure ClusterRec where
  server : String
  certificateAuthority : Option String
  insecureSkipTlsVerify : Option Bool
deriving DecidableEq, Repr

/-- A `user` record.  All three keys are probed before use, except that
`client-key` is read unconditionally once `client-certificate` is present
(`kubesession.py:70`); a missing key there is a `KeyError`. -/
structure UserRec where
  clientCertificate : Option String
  clientKey : Option String
  token : Option String
deriving DecidableEq, Repr

/-- A `context` record: the referenced cluster name, the optional referenced
user name (`'user' in context`), and the optional namespace override
(`context.get('namespace', ...)`). -/
structure ContextRec where
  cluster : String
  user : Option String
  «namespace» : Option String
deriving DecidableEq, Repr

/-- An entry of one of the document's named lists, e.g.
`{'name': ..., 'cluster': {...}}`. -/
structure Named (α : Type) where
  name : String
  val : α
deriving DecidableEq, Repr

/-- The kubeconfig document, with the fields `get_kube_session` reads. -/
structure KubeConfig where
  currentContext : String
  contexts : List (Named ContextRec)
  clusters : List (Named ClusterRec)
  users : List (Named UserRec)
deriving DecidableEq, Repr

/-- The lookup pattern `[c for c in lst if c['name'] == n][0]`: filter the
list by name and take the head; `none` models the `IndexError` raised by
`[0]` on an empty result. -/
def findNamed {α : Type} (l : List (Named α)) (n : String) : Option α :=
  (l.filter (fun e => e.name = n)).head?.map (fun e => e.val)

/-- A Python exception escaping `get_kube_session` at build time. -/
inductive KubeError where
  /-- `IndexError: list index out of range`, from `[...][0]` on an empty
  filter result (context, cluster, or user name not found). -/
  | indexError
  /-- `KeyError`, from reading a missing dictionary key. -/
  | keyError (key : String)
  /-- `ValueError`, from `urlparse` at `kubesession.py:84`, which is
  outside the `try:` that only wraps the `ipaddress.ip_address` call. -/
  | valueError (msg : String)
deriving DecidableEq, Repr

/-- The lookup pattern `[c for c in lst if c['name'] == n][0]` as an
`Except`, raising the `IndexError` of `[0]` on an empty filter result. -/
def lookupNamed {α : Type} (l : List (Named α)) (n : String) : Except KubeError α :=
  match findNamed l n with
  | some v => .ok v
  | none => .error .indexError

/-! ## The built session -/

/-- The `verify` attribute of a `requests.Session`: `True` by default, set
to `False` under `insecure-skip-tls-verify`, or to a certificate-authority
path string. -/
inductive VerifySetting where
  | flag (b : Bool)
  | caPath (p : String)
deriving DecidableEq, Repr

/-- The observable state of the built `requests.Session`: the
`_KubernetesAdapter` mounted for `kube://` URLs, the client certificate
pair `s.cert`, the default header map `s.headers` (the code only ever
writes the keys `Authorization` and `Host`, which `requests`' defaults do
not contain, so the map starts empty), and `s.verify`. -/
structure Session where
  adapter : AdapterState
  cert : Option (String × String)
  headers : List (String × String)
  verify : VerifySetting
deriving DecidableEq, Repr

/-- Dictionary assignment `headers[k] = v`: replace the value of an
existing key, else append the pair.  The code writes only the two distinct
exact keys `Authorization` and `Host`, so exact-key matching coincides with
the `CaseInsensitiveDict` behaviour here. -/
def setHeader : List (String × String) → String → String → List (String × String)
  | [], k, v => [(k, v)]
  | (k', v') :: rest, k, v =>
    if k' = k then (k, v) :: rest else (k', v') :: setHeader rest k v

/-- Dictionary lookup in a header map by exact key. -/
def headerValue : List (String × String) → String → Option String
  | [], _ => none
  | (k', v) :: rest, k => if k' = k then some v else headerValue rest k

/-! ## `urlparse(...).hostname` and literal-IP detection -/

/-- Characters allowed in a URL scheme after the first (letters, digits,
`+`, `-`, `.`), as in `urllib.parse`. -/
def isSchemeChar (c : Char) : Bool :=
  c.isAlphanum || c = '+' || c = '-' || c = '.'

/-- A valid URL scheme: non-empty, starts with a letter, all characters from
the scheme alphabet. -/
def validScheme : List Char → Bool
  | [] => false
  | c :: cs => c.isAlpha && (c :: cs).all isSchemeChar

/-- `netloc.rpartition('@')[2]`: the suffix after the last `@`, or the whole
list when there is none (strips the userinfo part of the authority). -/
def afterLastAt (l : List Char) : List Char :=
  (l.reverse.takeWhile (fun c => c != '@')).reverse

/-- The network-location that `urlsplit` extracts: strip a valid scheme
before the first `:`; if the remainder starts with `//`, the netloc runs to
the next `/`, `?` or `#`; otherwise there is no authority and the netloc is
empty. -/
def netlocOf (url : String) : List Char :=
  let l := url.data
  let sch := l.takeWhile (fun c => c != ':')
  let rest :=
    if sch.length < l.length ∧ validScheme sch then l.drop (sch.length + 1) else l
  match rest with
  | '/' :: '/' :: r => r.takeWhile (fun c => c != '/' && c != '?' && c != '#')
  | _ => []

/-- The `Invalid IPv6 URL` check of `urlsplit`: a netloc containing one
square bracket kind without the other makes `urlparse` raise `ValueError`.
In `get_kube_session` this call (`kubesession.py:84`) is outside the
`try:`, so the exception escapes and fails the build. -/
def urlparseRaises (url : String) : Bool :=
  let netloc := netlocOf url
  (netloc.contains '[' && !netloc.contains ']') ||
    (netloc.contains ']' && !netloc.contains '[')

/-- Model of `urlparse(url).hostname` for URLs that `urlparse` accepts
(the property access happens inside the `try` at `kubesession.py:86`):
drop the userinfo after the last `@` of the netloc; partition at the first
`[` anywhere in the remaining host info — when one is present the host runs
from just after it to the next `]` — else the host runs to the first `:`;
an empty host is `None`, otherwise the host is lowercased. -/
def urlparse_hostname (url : String) : Option String :=
  let hostinfo := afterLastAt (netlocOf url)
  let host :=
    if hostinfo.contains '[' then
      ((hostinfo.dropWhile (fun c => c != '[')).drop 1).takeWhile (fun c => c != ']')
    else
      hostinfo.takeWhile (fun c => c != ':')
  if host.isEmpty then none else some (lowerStr ⟨host⟩)

/-- Numeric value of a list of decimal digit characters. -/
def digitsVal (l : List Char) : Nat :=
  l.foldl (fun n c => n * 10 + (c.toNat - 48)) 0

/-- One dotted-quad octet as `ipaddress.IPv4Address` accepts it: one to
three ASCII digits, no leading zero unless the octet is exactly `0`, value
at most 255. -/
def ipv4OctetOk (l : List Char) : Bool :=
  decide (l ≠ []) && decide (l.length ≤ 3) && l.all Char.isDigit &&
    (decide (l.length = 1) || decide (l.head? ≠ some '0')) &&
    decide (digitsVal l ≤ 255)

/-- Model of `ipaddress.IPv4Address` accepting a string: exactly four
dot-separated valid octets.  `ipaddress.ip_address` succeeds on exactly the
IPv4 and IPv6 literals; the configurations exercised here use IPv4, so this
serves as the concrete instantiation of the IP-detection oracle. -/
def is_ipv4 (s : String) : Bool :=
  let parts := s.data.splitOn '.'
  decide (parts.length = 4) && parts.all ipv4OctetOk

/-! ## The session builder (`get_kube_session`)

`get_kube_session` is one Python function; it is embedded here as a
composition of stages in the source's statement order.  The detection of a
literal IP host delegates to the standard library's
`ipaddress.ip_address`, an external collaborator; the builder therefore
takes the success predicate `isIp` of that call as a parameter (`is_ipv4`
above is the concrete instance the witnesses use).  The bare `except:` at
`kubesession.py:89` swallows every failure of the hostname access and of
that call, but the `urlparse` call itself (`kubesession.py:84`) is outside
the `try` and its `ValueError` escapes the build. -/

/-- Lines 60-63: resolve the context's referenced user by name if the
context declares one (`IndexError` when the name is absent from `users`),
else the empty user dict. -/
def resolveUser (config : KubeConfig) (context : ContextRec) : Except KubeError UserRec :=
  match context.user with
  | some uname =>
    match findNamed config.users uname with
    | some u => .ok u
    | none => .error .indexError
  | none => .ok ⟨none, none, none⟩

/-- Lines 69-70: when `client-certificate` is present, set `s.cert` to the
pair, reading `client-key` unconditionally (`KeyError` when missing). -/
def applyClientCert (user : UserRec) (s : Session) : Except KubeError Session :=
  match user.clientCertificate with
  | some c =>
    match user.clientKey with
    | some k => .ok { s with cert := some (c, k) }
    | none => .error (.keyError "client-key")
  | none => .ok s

/-- Lines 72-73: when the user has a `token`, set the session's default
`Authorization` header to `Bearer <token>`. -/
def applyToken (user : UserRec) (s : Session) : Session :=
  match user.token with
  | some t => { s with headers := setHeader s.headers "Authorization" ("Bearer " ++ t) }
  | none => s

/-- Lines 76-94: under an `https://` server, either disable verification
entirely (`insecure-skip-tls-verify`), or run the literal-IP branch: the
`urlparse` call at line 84 is outside the `try:` and raises
`ValueError("Invalid IPv6 URL")` on a netloc with an unmatched bracket,
failing the build; otherwise the `try` wraps only the hostname access and
the `ipaddress.ip_address` call, so the `Host` default header is set to
`certificate_name` exactly when that detection succeeds and any of its
failures is swallowed; finally `s.verify` is pointed at the
`certificate-authority` when one is configured. -/
def applyTls (isIp : String → Bool) (cluster : ClusterRec) (certificate_name : String)
    (s : Session) : Except KubeError Session :=
  if startsWithStr cluster.server "https://" then
    if cluster.insecureSkipTlsVerify.getD false then
      .ok { s with verify := .flag false }
    else if urlparseRaises cluster.server then
      .error (.valueError "Invalid IPv6 URL")
    else
      let s' :=
        match urlparse_hostname cluster.server with
        | some h =>
          if isIp h then { s with headers := setHeader s.headers "Host" certificate_name }
          else s
        | none => s
      match cluster.certificateAuthority with
      | some ca => .ok { s' with verify := .caPath ca }
      | none => .ok s'
  else
    .ok s

/-- Lines 55-56: the context name to resolve — the caller-supplied
`current_context` if given, else the document's `current-context`. -/
def resolveContextName (config : KubeConfig) : Option String → String
  | none => config.currentContext
  | some c => c

/-- Lines 65-66: the fresh `requests.Session()` with the
`_KubernetesAdapter` mounted for `kube://`, before credentials and TLS
settings are applied.  The adapter is bound to the cluster's server and to
`context.get('namespace', current_namespace)`. -/
def initialSession (cluster : ClusterRec) (context : ContextRec)
    (current_namespace : String) : Session :=
  { adapter := ⟨cluster.server, context.«namespace».getD current_namespace, none⟩
    cert := none
    headers := []
    verify := .flag true }

/-- Model of `get_kube_session` (`kubesession.py:54-95`): resolve the
context (caller-supplied name or the document's `current-context`), the
cluster, and the user; construct a session with a `_KubernetesAdapter`
bound to the cluster's server and the effective namespace; apply client
certificate, token, and TLS settings in the source's order. -/
def get_kube_session (isIp : String → Bool) (config : KubeConfig)
    (current_context : Option String) (current_namespace : String)
    (certificate_name : String) : Except KubeError Session := do
  let context ← lookupNamed config.contexts (resolveContextName config current_context)
  let cluster ← lookupNamed config.clusters context.cluster
  let user ← resolveUser config context
  let s1 ← applyClientCert user (initialSession cluster context current_namespace)
  applyTls isIp cluster certificate_name (applyToken user s1)

/-! ## Helper lemmas -/

theorem headerValue_setHeader_self (hs : List (String × String)) (k v : String) :
    headerValue (setHeader hs k v) k = some v := by
  induction hs with
  | nil => simp [setHeader, headerValue]
  | cons p rest ih =>
    obtain ⟨k', v'⟩ := p
    by_cases h : k' = k <;> simp [setHeader, headerValue, h, ih]

theorem headerValue_setHeader_ne (hs : List (String × String)) (k v k' : String)
    (h : k' ≠ k) : headerValue (setHeader hs k v) k' = headerValue hs k' := by
  induction hs with
  | nil => simp [setHeader, headerValue, Ne.symm h]
  | cons p rest ih =>
    obtain ⟨k₀, v₀⟩ := p
    by_cases h₀ : k₀ = k
    · subst h₀
      simp [setHeader, headerValue, Ne.symm h]
    · simp [setHeader, headerValue, h₀, ih]

/-- `applyClientCert` only writes `s.cert`; on success every other field is
unchanged. -/
theorem applyClientCert_ok_fields (user : UserRec) (s s' : Session)
    (h : applyClientCert user s = .ok s') :
    s'.headers = s.headers ∧ s'.adapter = s.adapter ∧ s'.verify = s.verify := by
  unfold applyClientCert at h
  split at h
  · split at h
    · cases h; simp
    · cases h
  · cases h; simp

/-- `applyToken` only writes the `Authorization` default header. -/
theorem applyToken_fields (user : UserRec) (s : Session) :
    (applyToken user s).adapter = s.adapter ∧ (applyToken user s).cert = s.cert ∧
      (applyToken user s).verify = s.verify := by
  unfold applyToken
  split <;> simp

theorem applyToken_headerValue_ne (user : UserRec) (s : Session) (k : String)
    (h : k ≠ "Authorization") :
    headerValue (applyToken user s).headers k = headerValue s.headers k := by
  unfold applyToken
  split
  · simp [headerValue_setHeader_ne _ _ _ _ h]
  · rfl

/-- On success, `applyTls` only writes `s.verify` and the `Host` default
header. -/
theorem applyTls_ok_fields (isIp : String → Bool) (cluster : ClusterRec)
    (certificate_name : String) (s s' : Session)
    (h : applyTls isIp cluster certificate_name s = .ok s') :
    s'.adapter = s.adapter ∧ s'.cert = s.cert := by
  unfold applyTls at h
  repeat' split at h
  all_goals cases h
  all_goals simp

theorem applyTls_ok_headerValue_ne (isIp : String → Bool) (cluster : ClusterRec)
    (certificate_name : String) (s s' : Session)
    (h : applyTls isIp cluster certificate_name s = .ok s')
    (k : String) (hk : k ≠ "Host") :
    headerValue s'.headers k = headerValue s.headers k := by
  unfold applyTls at h
  repeat' split at h
  all_goals cases h
  all_goals simp [headerValue_setHeader_ne _ _ _ _ hk]

/-- The `verify` setting produced by a successful TLS stage, as a function
of the cluster's scheme, skip flag and certificate authority. -/
theorem applyTls_ok_verify (isIp : String → Bool) (cluster : ClusterRec)
    (certificate_name : String) (s s' : Session)
    (h : applyTls isIp cluster certificate_name s = .ok s') :
    s'.verify =
      if startsWithStr cluster.server "https://" = true then
        if cluster.insecureSkipTlsVerify.getD false = true then .flag false
        else
          match cluster.certificateAuthority with
          | some ca => .caPath ca
          | none => s.verify
      else s.verify := by
  unfold applyTls at h
  repeat' split at h
  all_goals cases h
  all_goals simp_all

/-- The `Host` default header produced by a successful TLS stage under
`https` without skip-verify: set to `certificate_name` exactly when the
server's hostname is detected as a literal IP. -/
theorem applyTls_ok_headerValue_host (isIp : String → Bool) (cluster : ClusterRec)
    (certificate_name : String) (s s' : Session)
    (hh : startsWithStr cluster.server "https://" = true)
    (hskip : cluster.insecureSkipTlsVerify.getD false = false)
    (h : applyTls isIp cluster certificate_name s = .ok s') :
    headerValue s'.headers "Host" =
      match urlparse_hostname cluster.server with
      | some h0 => if isIp h0 then some certificate_name
                   else headerValue s.headers "Host"
      | none => headerValue s.headers "Host" := by
  unfold applyTls at h
  rw [if_pos hh, if_neg (by simp [hskip])] at h
  rcases hr : urlparseRaises cluster.server with _ | _ <;> simp only [hr] at h
  · rw [if_neg (by simp)] at h
    rcases hu : urlparse_hostname cluster.server with _ | h0 <;>
      simp only [hu] at h ⊢
    · rcases hca : cluster.certificateAuthority with _ | ca <;>
        simp only [hca] at h <;> cases h <;> simp
    · rcases hip : isIp h0 with _ | _ <;>
        rcases hca : cluster.certificateAuthority with _ | ca <;>
          simp only [hip, hca, if_true, if_false, Bool.false_eq_true,
            ite_false, ite_true] at h <;>
        cases h <;> simp [hip, headerValue_setHeader_self]
  · simp only [if_true] at h
    cases h

/-- The success of the TLS stage does not depend on the IP-detection
oracle: if it succeeds for one oracle it succeeds for every oracle (the
only failure, the `ValueError` of `urlparse`, is decided by the server
string alone). -/
theorem applyTls_succeeds (isIp isIp' : String → Bool) (cluster : ClusterRec)
    (certificate_name : String) (s s' : Session)
    (h : applyTls isIp cluster certificate_name s = .ok s') :
    ∃ s'', applyTls isIp' cluster certificate_name s = .ok s'' := by
  unfold applyTls at h ⊢
  rcases hb : startsWithStr cluster.server "https://" with _ | _ <;>
    rcases hsk : cluster.insecureSkipTlsVerify.getD false with _ | _ <;>
      rcases hr : urlparseRaises cluster.server with _ | _ <;>
        rcases hca : cluster.certificateAuthority with _ | ca <;>
          simp [hb, hsk, hr, hca] at h ⊢

/-- Elimination for a successful `Except` bind. -/
theorem exceptBind_ok {α β : Type} (x : Except KubeError α) (f : α → Except KubeError β)
    (b : β) (h : x >>= f = .ok b) : ∃ a, x = .ok a ∧ f a = .ok b := by
  cases x with
  | error e => simp [Bind.bind, Except.bind] at h
  | ok a => exact ⟨a, rfl, by simpa [Bind.bind, Except.bind] using h⟩

/-- A successful `lookupNamed` is a successful `findNamed`. -/
theorem lookupNamed_ok {α : Type} (l : List (Named α)) (n : String) (a : α)
    (h : lookupNamed l n = .ok a) : findNamed l n = some a := by
  unfold lookupNamed at h
  rcases h' : findNamed l n with _ | v <;> simp only [h'] at h
  · cases h
  · cases h; rfl

/-- Inversion of a successful build: it names the resolved context, cluster
and user, and exhibits the built session as the composition of the
stages. -/
theorem get_kube_session_ok_elim (isIp : String → Bool) (config : KubeConfig)
    (current_context : Option String) (current_namespace certificate_name : String)
    (s : Session)
    (hok : get_kube_session isIp config current_context current_namespace
      certificate_name = .ok s) :
    ∃ context cluster user s1,
      findNamed config.contexts (resolveContextName config current_context) = some context ∧
      findNamed config.clusters context.cluster = some cluster ∧
      resolveUser config context = .ok user ∧
      applyClientCert user (initialSession cluster context current_namespace) = .ok s1 ∧
      applyTls isIp cluster certificate_name (applyToken user s1) = .ok s := by
  unfold get_kube_session at hok
  obtain ⟨context, h1, hok⟩ := exceptBind_ok _ _ _ hok
  obtain ⟨cluster, h2, hok⟩ := exceptBind_ok _ _ _ hok
  obtain ⟨user, h3, hok⟩ := exceptBind_ok _ _ _ hok
  obtain ⟨s1, h4, hok⟩ := exceptBind_ok _ _ _ hok
  exact ⟨context, cluster, user, s1, lookupNamed_ok _ _ _ h1, lookupNamed_ok _ _ _ h2,
    h3, h4, hok⟩

/-! ## Claims -/

/-- C1: for every request sent through the adapter, the sent URL equals the
original request URL with every occurrence of the literal substring
`kube://` replaced by the configured server string and every occurrence of
the literal token `$$NAMESPACE$$` replaced by the configured namespace
string — both unconditional substitutions over the full URL — and the
spec's two worked examples hold: server `http://host/get` with request URL
`kube:///api/v1` yields exactly `http://host/get/api/v1`, and namespace
`testnamespace` turns `.../api/v1/$$NAMESPACE$$/pods` into
`.../api/v1/testnamespace/pods`. -/
theorem C1_url_rewrite :
    (∀ (a : AdapterState) (r : Request),
      (send a r).1.url =
        specSubstitute (specSubstitute r.url "kube://" a.server)
          "$$NAMESPACE$$" a.«namespace») ∧
    (send ⟨"http://host/get", "default", none⟩ ⟨"kube:///api/v1", []⟩).1.url
      = "http://host/get/api/v1" ∧
    (send ⟨"http://host/get", "testnamespace", none⟩
        ⟨"kube:///api/v1/$$NAMESPACE$$/pods", []⟩).1.url
      = "http://host/get/api/v1/testnamespace/pods" := by
  refine ⟨fun a r => ?_, by decide, by decide⟩
  simp [send, pyReplace_eq_specSubstitute]

/-- C2: for every configuration document and requested context name, if the
named context is absent from the document's context list, or the resolved
context's referenced cluster name is absent from the cluster list, the
build fails synchronously with the resolution error (the `IndexError` of
the empty lookup, the spec's `ConfigError`), before any request is
attempted. -/
theorem C2_missing_context_or_cluster (isIp : String → Bool) (config : KubeConfig)
    (current_context : Option String) (current_namespace certificate_name : String)
    (h : findNamed config.contexts (resolveContextName config current_context) = none ∨
      ∃ context,
        findNamed config.contexts (resolveContextName config current_context)
            = some context ∧
          findNamed config.clusters context.cluster = none) :
    get_kube_session isIp config current_context current_namespace certificate_name
      = .error .indexError := by
  unfold get_kube_session
  rcases h with h | ⟨context, hc, hcl⟩
  · simp [lookupNamed, h, Bind.bind, Except.bind]
  · simp [lookupNamed, hc, hcl, Bind.bind, Except.bind]

/-- Witness for C2 at a concrete configuration whose context list is
empty. -/
theorem C2_missing_context_or_cluster_witness :
    get_kube_session is_ipv4 ⟨"ctx", [], [], []⟩ none "default" "kubernetes"
      = .error .indexError :=
  C2_missing_context_or_cluster is_ipv4 ⟨"ctx", [], [], []⟩ none "default" "kubernetes"
    (Or.inl (by decide))

/-- C3 fails as stated: a request carrying a `Host` header whose value is
the empty string.  The scan finds the header (`findHostHeader` returns
`some ""`), but `if host_header:` treats the empty string as falsy, so the
code removes the pool override instead of setting it to the header's
value. -/
theorem C3_counterexample :
    findHostHeader [("Host", "")] = some "" ∧
    ((send ⟨"srv", "ns", some "previous"⟩ ⟨"kube:///x", [("Host", "")]⟩).2).assertHostname
      = none ∧
    ((send ⟨"srv", "ns", some "previous"⟩ ⟨"kube:///x", [("Host", "")]⟩).2).assertHostname
      ≠ some "" := by
  refine ⟨by decide, by decide, by decide⟩

/-- C3 (amended): if the request's headers contain a header whose name
case-insensitively equals `Host` and whose value is non-empty, then after
the send step the pool's `assert_hostname` equals that (first such)
header's value; if no such header is present, or its value is the empty
string, any previously set override is removed, so verification reverts to
the connecting hostname. -/
theorem C3_assert_hostname_override (a : AdapterState) (r : Request) :
    (∀ v, findHostHeader r.headers = some v → v ≠ "" →
      ((send a r).2).assertHostname = some v) ∧
    (findHostHeader r.headers = none ∨ findHostHeader r.headers = some "" →
      ((send a r).2).assertHostname = none) := by
  unfold send
  constructor
  · intro v hv hne
    simp [hv, truthyOptStr, hne]
  · rintro (hv | hv) <;>
      cases ha : a.assertHostname <;>
        simp [hv, ha, truthyOptStr]

/-- Witness for C3 (amended) at a concrete adapter and request: a header
spelled `HOST` sets the override to its value. -/
theorem C3_assert_hostname_override_witness :
    ((send ⟨"srv", "ns", some "previous"⟩
        ⟨"kube:///x", [("HOST", "the-host")]⟩).2).assertHostname = some "the-host" :=
  (C3_assert_hostname_override ⟨"srv", "ns", some "previous"⟩
      ⟨"kube:///x", [("HOST", "the-host")]⟩).1 "the-host" (by decide) (by decide)

/-- C4 fails as stated: the cluster server `https://[::1]` truncated to
`https://[::1` has scheme `https`, no skip flag, and a netloc with an
unmatched bracket.  `urlparse` (called at `kubesession.py:84`, outside the
`try:`) raises `ValueError("Invalid IPv6 URL")` on it, so hostname parsing
fails and the build fails too, where the claim promises the build does not
fail. -/
theorem C4_counterexample :
    startsWithStr "https://[::1" "https://" = true ∧
    (ClusterRec.mk "https://[::1" none none).insecureSkipTlsVerify.getD false
      = false ∧
    get_kube_session is_ipv4
      ⟨"c", [⟨"c", ⟨"cl", none, none⟩⟩], [⟨"cl", ⟨"https://[::1", none, none⟩⟩], []⟩
      none "default" "kubernetes" = .error (.valueError "Invalid IPv6 URL") :=
  ⟨rfl, rfl, rfl⟩

/-- C4 (amended): under an `https` server without skip-verify — once the
credential stages have succeeded — if the server URL's network-location
contains an unmatched square bracket, `urlparse` raises and the build
fails with `ValueError("Invalid IPv6 URL")`; otherwise the built session's
default headers carry `Host = certificate_name` exactly when the server's
hostname component is detected as a literal IP address (`isIp` is the
success of `ipaddress.ip_address`; a hostname that fails to extract — the
`none` case — counts as not an IP), and the detection's outcome never
makes the build fail: a build that succeeded for one detection oracle
succeeds for every oracle. -/
theorem C4_host_header_for_ip_host (isIp : String → Bool) (config : KubeConfig)
    (current_context : Option String) (current_namespace certificate_name : String)
    (context : ContextRec) (cluster : ClusterRec)
    (hctx : findNamed config.contexts (resolveContextName config current_context)
      = some context)
    (hclu : findNamed config.clusters context.cluster = some cluster)
    (hhttps : startsWithStr cluster.server "https://" = true)
    (hskip : cluster.insecureSkipTlsVerify.getD false = false) :
    (∀ user s1, resolveUser config context = .ok user →
      applyClientCert user (initialSession cluster context current_namespace) = .ok s1 →
      urlparseRaises cluster.server = true →
      get_kube_session isIp config current_context current_namespace certificate_name
        = .error (.valueError "Invalid IPv6 URL")) ∧
    (∀ s, get_kube_session isIp config current_context current_namespace
        certificate_name = .ok s →
      (headerValue s.headers "Host" =
        match urlparse_hostname cluster.server with
        | some h => if isIp h then some certificate_name else none
        | none => none) ∧
      ∀ isIp' : String → Bool,
        ∃ s', get_kube_session isIp' config current_context current_namespace
          certificate_name = .ok s') := by
  constructor
  · intro user s1 hu hcc hraise
    unfold get_kube_session
    simp [lookupNamed, hctx, hclu, hu, hcc, applyTls, hhttps, hskip, hraise,
      Bind.bind, Except.bind]
  · intro s hok
    obtain ⟨context', cluster', user, s1, h1, h2, h3, h4, h5⟩ :=
      get_kube_session_ok_elim _ _ _ _ _ _ hok
    rw [hctx] at h1; cases h1
    rw [hclu] at h2; cases h2
    constructor
    · rw [applyTls_ok_headerValue_host _ _ _ _ _ hhttps hskip h5]
      have hname : headerValue (applyToken user s1).headers "Host" = none := by
        rw [applyToken_headerValue_ne _ _ _ (by decide),
          (applyClientCert_ok_fields _ _ _ h4).1]
        rfl
      rcases hu : urlparse_hostname cluster.server with _ | h <;> simp [hname]
    · intro isIp'
      obtain ⟨s'', h6⟩ := applyTls_succeeds isIp isIp' cluster certificate_name
        (applyToken user s1) s h5
      refine ⟨s'', ?_⟩
      unfold get_kube_session
      simp [lookupNamed, hctx, hclu, h3, h4, h6, Bind.bind, Except.bind]

/-- Witness for C4 (amended) at a literal-IP `https` server, with the
concrete `ipaddress` model `is_ipv4`: the built session carries
`Host = "kubernetes"`. -/
theorem C4_host_header_for_ip_host_witness :
    headerValue (Session.mk ⟨"https://23.22.14.18", "default", none⟩ none
      [("Host", "kubernetes")] (.flag true)).headers "Host" = some "kubernetes" :=
  (((C4_host_header_for_ip_host is_ipv4
      ⟨"c", [⟨"c", ⟨"cl", none, none⟩⟩],
        [⟨"cl", ⟨"https://23.22.14.18", none, none⟩⟩], []⟩
      none "default" "kubernetes" ⟨"cl", none, none⟩
      ⟨"https://23.22.14.18", none, none⟩
      rfl rfl rfl rfl).2
      (Session.mk ⟨"https://23.22.14.18", "default", none⟩ none
        [("Host", "kubernetes")] (.flag true))
      rfl).1).trans (by decide)

/-- C5: under an `https` server with `insecure-skip-tls-verify` set to
true, the built session's verification flag is `False`, regardless of any
certificate-authority value on the cluster. -/
theorem C5_insecure_skip_disables_verification (isIp : String → Bool)
    (config : KubeConfig) (current_context : Option String)
    (current_namespace certificate_name : String)
    (context : ContextRec) (cluster : ClusterRec) (s : Session)
    (hctx : findNamed config.contexts (resolveContextName config current_context)
      = some context)
    (hclu : findNamed config.clusters context.cluster = some cluster)
    (hhttps : startsWithStr cluster.server "https://" = true)
    (hskip : cluster.insecureSkipTlsVerify = some true)
    (hok : get_kube_session isIp config current_context current_namespace
      certificate_name = .ok s) :
    s.verify = .flag false := by
  obtain ⟨context', cluster', user, s1, h1, h2, h3, h4, h5⟩ :=
    get_kube_session_ok_elim _ _ _ _ _ _ hok
  rw [hctx] at h1; cases h1
  rw [hclu] at h2; cases h2
  rw [applyTls_ok_verify _ _ _ _ _ h5, if_pos hhttps, if_pos (by simp [hskip])]

/-- Witness for C5 at a cluster with a certificate authority and the skip
flag both set. -/
theorem C5_insecure_skip_disables_verification_witness :
    (Session.mk ⟨"https://h", "default", none⟩ none [] (.flag false)).verify
      = .flag false :=
  C5_insecure_skip_disables_verification is_ipv4
    ⟨"c", [⟨"c", ⟨"cl", none, none⟩⟩],
      [⟨"cl", ⟨"https://h", some "/dev/null", some true⟩⟩], []⟩
    none "default" "kubernetes" ⟨"cl", none, none⟩
    ⟨"https://h", some "/dev/null", some true⟩
    (Session.mk ⟨"https://h", "default", none⟩ none [] (.flag false))
    rfl rfl rfl rfl rfl

/-- C6: the built session's trust-root setting is the cluster's
certificate-authority value exactly when the server scheme is `https`, the
skip flag is off and the authority is configured; in particular under an
`http` server a supplied authority is ignored and the trust root is never
set to it. -/
theorem C6_trust_root_exactly_under_https (isIp : String → Bool)
    (config : KubeConfig) (current_context : Option String)
    (current_namespace certificate_name : String)
    (context : ContextRec) (cluster : ClusterRec) (s : Session) (v : String)
    (hctx : findNamed config.contexts (resolveContextName config current_context)
      = some context)
    (hclu : findNamed config.clusters context.cluster = some cluster)
    (hok : get_kube_session isIp config current_context current_namespace
      certificate_name = .ok s) :
    s.verify = .caPath v ↔
      (startsWithStr cluster.server "https://" = true ∧
        cluster.insecureSkipTlsVerify.getD false = false ∧
        cluster.certificateAuthority = some v) := by
  obtain ⟨context', cluster', user, s1, h1, h2, h3, h4, h5⟩ :=
    get_kube_session_ok_elim _ _ _ _ _ _ hok
  rw [hctx] at h1; cases h1
  rw [hclu] at h2; cases h2
  rw [applyTls_ok_verify _ _ _ _ _ h5, (applyToken_fields user s1).2.2,
    (applyClientCert_ok_fields _ _ _ h4).2.2]
  rcases hb : startsWithStr cluster.server "https://" with _ | _
  · simp [hb, initialSession]
  · rcases hsk : cluster.insecureSkipTlsVerify.getD false with _ | _
    · rcases hca : cluster.certificateAuthority with _ | ca <;>
        simp [hb, hsk, hca, initialSession]
    · simp [hb, hsk]

/-- Witness for C6: with `https` and authority `/dev/null`, the trust root
is `/dev/null`. -/
theorem C6_trust_root_exactly_under_https_witness :
    (Session.mk ⟨"https://httpbin.org:80/get", "default", none⟩ none []
      (.caPath "/dev/null")).verify = .caPath "/dev/null" :=
  (C6_trust_root_exactly_under_https is_ipv4
      ⟨"c", [⟨"c", ⟨"cl", none, none⟩⟩],
        [⟨"cl", ⟨"https://httpbin.org:80/get", some "/dev/null", none⟩⟩], []⟩
      none "default" "kubernetes" ⟨"cl", none, none⟩
      ⟨"https://httpbin.org:80/get", some "/dev/null", none⟩
      (Session.mk ⟨"https://httpbin.org:80/get", "default", none⟩ none []
        (.caPath "/dev/null"))
      "/dev/null" rfl rfl rfl).mpr ⟨rfl, rfl, rfl⟩

/-- C7: when the resolved user record has a token `t`, the built session's
default headers carry `Authorization` with value exactly `Bearer ` followed
by `t` (so every request through the session carries it). -/
theorem C7_bearer_token_header (isIp : String → Bool) (config : KubeConfig)
    (current_context : Option String) (current_namespace certificate_name : String)
    (context : ContextRec) (uname : String) (user : UserRec) (t : String) (s : Session)
    (hctx : findNamed config.contexts (resolveContextName config current_context)
      = some context)
    (huser : context.user = some uname)
    (hu : findNamed config.users uname = some user)
    (ht : user.token = some t)
    (hok : get_kube_session isIp config current_context current_namespace
      certificate_name = .ok s) :
    headerValue s.headers "Authorization" = some ("Bearer " ++ t) := by
  obtain ⟨context', cluster', user', s1, h1, h2, h3, h4, h5⟩ :=
    get_kube_session_ok_elim _ _ _ _ _ _ hok
  rw [hctx] at h1; cases h1
  unfold resolveUser at h3
  simp only [huser, hu] at h3
  cases h3
  rw [applyTls_ok_headerValue_ne _ _ _ _ _ h5 _ (by decide)]
  unfold applyToken
  simp [ht, headerValue_setHeader_self]

/-- Witness for C7: a token user yields `Authorization: Bearer something`. -/
theorem C7_bearer_token_header_witness :
    headerValue (Session.mk ⟨"http://httpbin.org:80/get", "default", none⟩ none
      [("Authorization", "Bearer something")] (.flag true)).headers "Authorization"
      = some ("Bearer " ++ "something") :=
  C7_bearer_token_header is_ipv4
    ⟨"c", [⟨"c", ⟨"cl", some "u", none⟩⟩],
      [⟨"cl", ⟨"http://httpbin.org:80/get", none, none⟩⟩],
      [⟨"u", ⟨none, none, some "something"⟩⟩]⟩
    none "default" "kubernetes" ⟨"cl", some "u", none⟩ "u"
    ⟨none, none, some "something"⟩ "something"
    (Session.mk ⟨"http://httpbin.org:80/get", "default", none⟩ none
      [("Authorization", "Bearer something")] (.flag true))
    rfl rfl rfl rfl rfl

/-- C8: when the resolved context declares no user reference, the built
session carries no `Authorization` default header and no client certificate
pair. -/
theorem C8_anonymous_session (isIp : String → Bool) (config : KubeConfig)
    (current_context : Option String) (current_namespace certificate_name : String)
    (context : ContextRec) (s : Session)
    (hctx : findNamed config.contexts (resolveContextName config current_context)
      = some context)
    (huser : context.user = none)
    (hok : get_kube_session isIp config current_context current_namespace
      certificate_name = .ok s) :
    headerValue s.headers "Authorization" = none ∧ s.cert = none := by
  obtain ⟨context', cluster', user', s1, h1, h2, h3, h4, h5⟩ :=
    get_kube_session_ok_elim _ _ _ _ _ _ hok
  rw [hctx] at h1; cases h1
  unfold resolveUser at h3
  simp only [huser] at h3
  cases h3
  unfold applyClientCert at h4
  simp only at h4
  cases h4
  constructor
  · rw [applyTls_ok_headerValue_ne _ _ _ _ _ h5 _ (by decide)]
    simp [applyToken, initialSession, headerValue]
  · rw [(applyTls_ok_fields _ _ _ _ _ h5).2, (applyToken_fields _ _).2.1]
    rfl

/-- Witness for C8: a context without a user builds an anonymous session. -/
theorem C8_anonymous_session_witness :
    headerValue (Session.mk ⟨"http://httpbin.org:80/get", "default", none⟩ none []
      (.flag true)).headers "Authorization" = none ∧
    (Session.mk ⟨"http://httpbin.org:80/get", "default", none⟩ none []
      (.flag true)).cert = none :=
  C8_anonymous_session is_ipv4
    ⟨"c", [⟨"c", ⟨"cl", none, none⟩⟩],
      [⟨"cl", ⟨"http://httpbin.org:80/get", none, none⟩⟩], []⟩
    none "default" "kubernetes" ⟨"cl", none, none⟩
    (Session.mk ⟨"http://httpbin.org:80/get", "default", none⟩ none [] (.flag true))
    rfl rfl rfl

/-- C9: the namespace bound into the transport rewriter is the resolved
context's own namespace field when present, and the caller-supplied
`current_namespace` otherwise. -/
theorem C9_effective_namespace (isIp : String → Bool) (config : KubeConfig)
    (current_context : Option String) (current_namespace certificate_name : String)
    (context : ContextRec) (s : Session)
    (hctx : findNamed config.contexts (resolveContextName config current_context)
      = some context)
    (hok : get_kube_session isIp config current_context current_namespace
      certificate_name = .ok s) :
    (∀ n, context.«namespace» = some n → s.adapter.«namespace» = n) ∧
    (context.«namespace» = none → s.adapter.«namespace» = current_namespace) := by
  obtain ⟨context', cluster', user', s1, h1, h2, h3, h4, h5⟩ :=
    get_kube_session_ok_elim _ _ _ _ _ _ hok
  rw [hctx] at h1; cases h1
  have hns : s.adapter.«namespace»
      = context.«namespace».getD current_namespace := by
    rw [(applyTls_ok_fields _ _ _ _ _ h5).1, (applyToken_fields _ _).1,
      (applyClientCert_ok_fields _ _ _ h4).2.1]
    rfl
  constructor
  · intro n hn
    rw [hns, hn]
    rfl
  · intro hn
    rw [hns, hn]
    rfl

/-- Witness for C9 at a context carrying its own namespace field. -/
theorem C9_effective_namespace_witness :
    (⟨"cl", none, some "testnamespace"⟩ : ContextRec).«namespace»
        = some "testnamespace" ∧
    (Session.mk ⟨"http://httpbin.org:80/get", "testnamespace", none⟩ none []
      (.flag true)).adapter.«namespace» = "testnamespace" :=
  ⟨rfl,
    (C9_effective_namespace is_ipv4
        ⟨"c", [⟨"c", ⟨"cl", none, some "testnamespace"⟩⟩],
          [⟨"cl", ⟨"http://httpbin.org:80/get", none, none⟩⟩], []⟩
        none "default" "kubernetes" ⟨"cl", none, some "testnamespace"⟩
        (Session.mk ⟨"http://httpbin.org:80/get", "testnamespace", none⟩ none []
          (.flag true))
        rfl rfl).1 "testnamespace" rfl⟩

/-- C10: when the resolved user record has a `client-certificate` field but
no `client-key` field, the build fails synchronously with the key-lookup
error for `client-key` (the code reads `user['client-key']`
unconditionally once `client-certificate` is present). -/
theorem C10_missing_client_key (isIp : String → Bool) (config : KubeConfig)
    (current_context : Option String) (current_namespace certificate_name : String)
    (context : ContextRec) (cluster : ClusterRec) (uname : String) (user : UserRec)
    (c : String)
    (hctx : findNamed config.contexts (resolveContextName config current_context)
      = some context)
    (hclu : findNamed config.clusters context.cluster = some cluster)
    (huser : context.user = some uname)
    (hu : findNamed config.users uname = some user)
    (hcert : user.clientCertificate = some c)
    (hkey : user.clientKey = none) :
    get_kube_session isIp config current_context current_namespace certificate_name
      = .error (.keyError "client-key") := by
  unfold get_kube_session
  simp [lookupNamed, hctx, hclu, resolveUser, huser, hu, applyClientCert, hcert, hkey,
    Bind.bind, Except.bind]

/-- Witness for C10: a user with a certificate but no key fails the
build. -/
theorem C10_missing_client_key_witness :
    get_kube_session is_ipv4
      ⟨"c", [⟨"c", ⟨"cl", some "u", none⟩⟩], [⟨"cl", ⟨"https://h", none, none⟩⟩],
        [⟨"u", ⟨some "/cert.pem", none, none⟩⟩]⟩
      none "default" "kubernetes" = .error (.keyError "client-key") :=
  C10_missing_client_key is_ipv4
    ⟨"c", [⟨"c", ⟨"cl", some "u", none⟩⟩], [⟨"cl", ⟨"https://h", none, none⟩⟩],
      [⟨"u", ⟨some "/cert.pem", none, none⟩⟩]⟩
    none "default" "kubernetes" ⟨"cl", some "u", none⟩ ⟨"https://h", none, none⟩
    "u" ⟨some "/cert.pem", none, none⟩ "/cert.pem"
    rfl rfl rfl rfl rfl rfl

end Kubesession
